import Mathlib

/-!
Verification of the CRM sales-dashboard pipeline
(`Updated.pipeline.py` and the original `CRM Data Pipeline.py`).

The pipeline is shallowly embedded: dataframes become lists of rows of
`Value` cells, the filesystem becomes an association list from paths to
file contents, and the library calls that the claims depend on
(`DataFrame.merge`, `value_counts`, `sum`, `mean`, Python `round`,
`str.lower`, substring tests) are modelled faithfully from their
documented semantics as used at the call sites.  External computations
whose output the claims never inspect (sklearn fitting and the
classification-report text, matplotlib, the textual rendering of summary
values) are parameters of the corresponding definitions, so every theorem
holds for an arbitrary choice of them.
-/

/-- Cell values of a dataframe: a numeric cell, a string cell, or a
missing value (pandas NaN). -/
inductive Value where
  | na : Value
  | num (q : ℚ) : Value
  | str (s : String) : Value
deriving DecidableEq, Repr

/-- A dataframe: an ordered list of column names and a list of rows,
each row an ordered list of cells. -/
structure DF where
  cols : List String
  rows : List (List Value)
deriving DecidableEq, Repr

/-- Cell of `row` in the column named `key` (given the column list
`cols`); missing positions read as NaN. -/
def keyCell (cols : List String) (key : String) (row : List Value) : Value :=
  row.getD (cols.indexOf key) Value.na

/-- Column extraction: `df[c]` as the list of cells of column `c`,
top to bottom. -/
def DF.col (df : DF) (c : String) : List Value :=
  df.rows.map (keyCell df.cols c)

/- ----------------------------------------------------------------
   String helpers: Python `s.lower()` and `k in s` (substring test).
   ---------------------------------------------------------------- -/

/-- Whether the first character list is an initial segment of the second. -/
def leadsList : List Char → List Char → Bool
  | [], _ => true
  | _ :: _, [] => false
  | a :: as, b :: bs => a == b && leadsList as bs

/-- Whether `needle` occurs contiguously inside the second list. -/
def hasSubList (needle : List Char) : List Char → Bool
  | [] => needle.isEmpty
  | c :: cs => leadsList needle (c :: cs) || hasSubList needle cs

/-- Python `needle in hay` on strings: contiguous substring test. -/
def strContains (hay needle : String) : Bool :=
  hasSubList needle.data hay.data

/-- Python `s.lower()` on the ASCII sheet names the pipeline handles:
lowercase each character. -/
def toLowerStr (s : String) : String :=
  String.mk (s.data.map Char.toLower)

/- ----------------------------------------------------------------
   Sheet resolver (`detect_sheet_names`) and the per-role override
   logic of `main`.
   ---------------------------------------------------------------- -/

/-- Keywords identifying the deals sheet in `detect_sheet_names`. -/
def dealsKeywords : List String := ["deal", "pipeline", "opportunit"]

/-- Keywords identifying the teams sheet in `detect_sheet_names`. -/
def teamsKeywords : List String := ["team", "sales"]

/-- Python `any(k in lname for k in keywords)` with `lname = s.lower()`. -/
def matchesAny (kws : List String) (s : String) : Bool :=
  kws.any (fun k => strContains (toLowerStr s) k)

/-- The inner `find_sheet` of `detect_sheet_names`: first sheet name whose
lowercase form contains one of the keywords, else `None`. -/
def find_sheet (names : List String) (kws : List String) : Option String :=
  names.find? (matchesAny kws)

/-- The sheet resolver `detect_sheet_names`: deals sheet is the first
keyword match or `sheet_names[0]`; teams sheet is the first keyword match
or `sheet_names[-1]`.  `none` models the index error on an empty workbook
(pandas never produces one). -/
def detect_sheet_names (names : List String) : Option (String × String) :=
  match names.head?, names.getLast? with
  | some h0, some lst =>
      some ((find_sheet names dealsKeywords).getD h0,
            (find_sheet names teamsKeywords).getD lst)
  | _, _ => none

/-- Python truthiness of an optional CLI string argument: `None` and the
empty string are falsy. -/
def truthy : Option String → Bool
  | none => false
  | some s => decide (s ≠ "")

/-- Python `x or y` for an optional string `x` and a string `y`. -/
def pyOr (x : Option String) (y : String) : String :=
  match x with
  | some s => if s = "" then y else s
  | none => y

/-- The sheet-selection logic of `main`: if either CLI override is falsy,
run detection and fill each role with the override when truthy, otherwise
with the detected name; if both overrides are truthy, detection never
runs. -/
def resolve_sheets (dealsArg teamsArg : Option String) (names : List String) :
    Option (String × String) :=
  if truthy dealsArg && truthy teamsArg then
    some (dealsArg.getD "", teamsArg.getD "")
  else
    match detect_sheet_names names with
    | none => none
    | some (ad, at2) => some (pyOr dealsArg ad, pyOr teamsArg at2)

/- ----------------------------------------------------------------
   Filesystem model and `ensure_excel_available`.
   ---------------------------------------------------------------- -/

/-- The filesystem as an association list from paths to file contents;
the first binding of a path is its current content.  Directories are not
modelled (`mkdir` only widens the set of writable paths). -/
abbrev FS := List (String × String)

/-- Whether a file exists at path `p`. -/
def fileExists (fs : FS) (p : String) : Bool :=
  (fs.lookup p).isSome

/-- Content of the file at `p`, if any. -/
def readFS (fs : FS) (p : String) : Option String :=
  fs.lookup p

/-- Write content `c` at path `p` (shadowing any previous content). -/
def writeFS (fs : FS) (p c : String) : FS :=
  (p, c) :: fs

/-- The acquisition step `ensure_excel_available`: if
`raw_dir/canonical_name` exists, do nothing; otherwise copy `src_excel`
there, or fail with a not-found error when the source is missing.  In the
Python source `canonical_name` defaults to `CRM_Sales_Dashboard_25.xlsx`. -/
def ensure_excel_available (fs : FS) (src_excel raw_dir canonical_name : String) :
    Except String (FS × String) :=
  let dest := raw_dir ++ "/" ++ canonical_name
  if fileExists fs dest then
    Except.ok (fs, dest)
  else if fileExists fs src_excel then
    Except.ok (writeFS fs dest ((readFS fs src_excel).getD ""), dest)
  else
    Except.error ("Could not find source Excel at " ++ src_excel)

/- ----------------------------------------------------------------
   Merger: `process_and_merge` over the pandas left merge.
   ---------------------------------------------------------------- -/

/-- Rows of `t` whose key cell equals `v` (the pandas match set of a left
row during `merge(..., on=key, how="left")`). -/
def matchRows (t : DF) (key : String) (v : Value) : List (List Value) :=
  t.rows.filter (fun R => decide (keyCell t.cols key R = v))

/-- Output rows generated by one left row `L` in a pandas left merge: one
row per matching right row, or a single row padded with NaN when no right
row matches. -/
def mergeRow (dcols : List String) (t : DF) (key : String) (L : List Value) :
    List (List Value) :=
  let ti := t.cols.indexOf key
  let ms := matchRows t key (keyCell dcols key L)
  if ms.isEmpty then
    [L ++ List.replicate (t.cols.eraseIdx ti).length Value.na]
  else
    ms.map (fun R => L ++ R.eraseIdx ti)

/-- Concatenation of the per-row outputs, in left-row order. -/
def flatMapRows (g : List Value → List (List Value)) :
    List (List Value) → List (List Value)
  | [] => []
  | L :: ls => g L ++ flatMapRows g ls

/-- The pandas left merge `d.merge(t, on=key, how="left")`: columns are
the left columns followed by the right columns minus the key, with `_x` /
`_y` suffixes on clashing non-key names; every left row produces one
output row per matching right row, or one NaN-padded row when unmatched. -/
def mergeLeft (d t : DF) (key : String) : DF :=
  let ti := t.cols.indexOf key
  let rcols := t.cols.eraseIdx ti
  { cols :=
      d.cols.map (fun c => if c ≠ key ∧ t.cols.contains c then c ++ "_x" else c)
      ++ rcols.map (fun c => if d.cols.contains c then c ++ "_y" else c),
    rows := flatMapRows (mergeRow d.cols t key) d.rows }

/-- The merger `process_and_merge`: left merge on `SalesRep` when both
tables have that column, otherwise (after a warning) the deals table
unchanged. -/
def process_and_merge (d t : DF) : DF :=
  if "SalesRep" ∈ d.cols ∧ "SalesRep" ∈ t.cols then
    mergeLeft d t "SalesRep"
  else
    d

/- ----------------------------------------------------------------
   Reporter: `generate_summary` and `save_summary_report`.
   ---------------------------------------------------------------- -/

/-- Values stored in the summary dictionary: a number, or the per-stage
count dictionary. -/
inductive SVal where
  | num (q : ℚ) : SVal
  | counts (cs : List (Value × ℕ)) : SVal
deriving DecidableEq, Repr

/-- Numeric cells of a column (pandas aggregations skip NaN). -/
def numsOf (vs : List Value) : List ℚ :=
  vs.filterMap (fun v => match v with | Value.num q => some q | _ => none)

/-- Pandas `Series.sum` over a numeric column: sum of non-NaN cells. -/
def colSum (vs : List Value) : ℚ :=
  (numsOf vs).sum

/-- Pandas `Series.mean`: sum of non-NaN cells over their count. -/
def colMean (vs : List Value) : ℚ :=
  colSum vs / (numsOf vs).length

/-- Distinct values in first-appearance order. -/
def firstOccs (vs : List Value) : List Value :=
  vs.foldl (fun acc v => if v ∈ acc then acc else acc ++ [v]) []

/-- Insert a keyed count into a list sorted by descending count. -/
def insertDesc (p : Value × ℕ) : List (Value × ℕ) → List (Value × ℕ)
  | [] => [p]
  | q :: qs => if q.2 < p.2 then p :: q :: qs else q :: insertDesc p qs

/-- Sort keyed counts by descending count (pandas `value_counts` order). -/
def sortByCountDesc : List (Value × ℕ) → List (Value × ℕ)
  | [] => []
  | p :: ps => insertDesc p (sortByCountDesc ps)

/-- Pandas `Series.value_counts().to_dict()`: count of each distinct
non-NaN value, ordered by descending count. -/
def value_counts (vs : List Value) : List (Value × ℕ) :=
  let xs := vs.filter (fun v => decide (v ≠ Value.na))
  sortByCountDesc ((firstOccs xs).map (fun v => (v, xs.count v)))

/-- Integer rounding half-to-even, the rounding mode of Python `round`
(exact on the rational values the claims use). -/
def roundHalfEven (x : ℚ) : ℤ :=
  let f := ⌊x⌋
  let r := x - f
  if r < 1 / 2 then f
  else if 1 / 2 < r then f + 1
  else if f % 2 = 0 then f else f + 1

/-- Python `round(x, 2)`. -/
def pyRound2 (x : ℚ) : ℚ :=
  (roundHalfEven (x * 100) : ℚ) / 100

/-- The reporter `generate_summary`: insertion-ordered dictionary with
total revenue and average deal size (when `Amount` exists), the per-stage
counts (when `Stage` exists) and the win-rate percentage rounded to two
decimals (when `Closed` exists). -/
def generate_summary (df : DF) : List (String × SVal) :=
  (if "Amount" ∈ df.cols then
     [("Total Revenue", SVal.num (colSum (df.col "Amount"))),
      ("Average Deal Size", SVal.num (colMean (df.col "Amount")))]
   else [])
  ++ (if "Stage" ∈ df.cols then
        [("Deals by Stage", SVal.counts (value_counts (df.col "Stage")))]
      else [])
  ++ (if "Closed" ∈ df.cols then
        [("Win Rate (%)", SVal.num (pyRound2 (colMean (df.col "Closed") * 100)))]
      else [])

/-- The reporter `save_summary_report`: writes one `key: value` line per
summary entry, in order, to `reports_dir/summary_report.txt`.  The
textual rendering of a summary value (Python `str`) is the parameter
`render`. -/
def save_summary_report (render : SVal → String)
    (summary : List (String × SVal)) (reports_dir : String) (fs : FS) : FS :=
  writeFS fs (reports_dir ++ "/summary_report.txt")
    (String.join (summary.map (fun e => e.1 ++ ": " ++ render e.2 ++ "\n")))

/- ----------------------------------------------------------------
   Classifier: `train_model`.
   ---------------------------------------------------------------- -/

/-- Pandas `fillna(0)` on the feature column. -/
def fillna0 (v : Value) : Value :=
  if v = Value.na then Value.num 0 else v

/-- Pandas `astype(int)` on the label column: numeric cells truncate
toward zero, anything else reads as zero (the failing library cast is
outside the claims). -/
def closedToInt (v : Value) : ℤ :=
  match v with
  | Value.num q => if 0 ≤ q then ⌊q⌋ else -⌊-q⌋
  | _ => 0

/-- Feature/label pairs handed to `train_test_split`: `Amount` with NaN
filled by zero, zipped with `Closed` as integers. -/
def trainData (df : DF) : List (Value × ℤ) :=
  ((df.col "Amount").map fillna0).zip ((df.col "Closed").map closedToInt)

/-- How sklearn resolves the RNG seed: an explicit `random_state` wins
over ambient process entropy. -/
def resolveSeed : Option ℕ → ℕ → ℕ
  | some s, _ => s
  | none, e => e

/-- The train/test split performed by `train_model`: `test_size=0.2`,
`random_state=42`, so the ambient entropy `osEntropy` is never consulted.
The split algorithm itself (sklearn) is the parameter `split`. -/
def trainSplit
    (split : ℚ → ℕ → List (Value × ℤ) → List (Value × ℤ) × List (Value × ℤ))
    (osEntropy : ℕ) (df : DF) : List (Value × ℤ) × List (Value × ℤ) :=
  split (1 / 5) (resolveSeed (some 42) osEntropy) (trainData df)

/-- The classifier stage `train_model`: when either `Closed` or `Amount`
is missing it warns and returns with the filesystem untouched; otherwise
it splits, fits, and writes the classification report (the sklearn
fit-predict-report computation is the parameter `report`) to
`reports_dir/model_report.txt`. -/
def train_model
    (split : ℚ → ℕ → List (Value × ℤ) → List (Value × ℤ) × List (Value × ℤ))
    (report : List (Value × ℤ) × List (Value × ℤ) → String)
    (osEntropy : ℕ) (df : DF) (reports_dir : String) (fs : FS) : FS :=
  if "Closed" ∈ df.cols ∧ "Amount" ∈ df.cols then
    writeFS fs (reports_dir ++ "/model_report.txt")
      (report (trainSplit split osEntropy df))
  else
    fs

/- ----------------------------------------------------------------
   Theorems.
   ---------------------------------------------------------------- -/

/-- Claim C3: if the canonical destination `raw_dir/CRM_Sales_Dashboard_25.xlsx`
already exists, `ensure_excel_available` performs no copy and leaves the
filesystem untouched regardless of the candidate source; if the
destination is absent and the source does not exist, it fails with the
not-found error; if the destination is absent and the source exists, it
copies the source content to the destination. -/
theorem ensure_excel_available_cases (fs : FS) (src raw : String) :
    (fileExists fs (raw ++ "/" ++ "CRM_Sales_Dashboard_25.xlsx") = true →
      ensure_excel_available fs src raw "CRM_Sales_Dashboard_25.xlsx"
        = Except.ok (fs, raw ++ "/" ++ "CRM_Sales_Dashboard_25.xlsx")) ∧
    (fileExists fs (raw ++ "/" ++ "CRM_Sales_Dashboard_25.xlsx") = false →
      fileExists fs src = false →
      ensure_excel_available fs src raw "CRM_Sales_Dashboard_25.xlsx"
        = Except.error ("Could not find source Excel at " ++ src)) ∧
    (fileExists fs (raw ++ "/" ++ "CRM_Sales_Dashboard_25.xlsx") = false →
      fileExists fs src = true →
      ensure_excel_available fs src raw "CRM_Sales_Dashboard_25.xlsx"
        = Except.ok
            (writeFS fs (raw ++ "/" ++ "CRM_Sales_Dashboard_25.xlsx")
              ((readFS fs src).getD ""),
             raw ++ "/" ++ "CRM_Sales_Dashboard_25.xlsx") ∧
      readFS
          (writeFS fs (raw ++ "/" ++ "CRM_Sales_Dashboard_25.xlsx")
            ((readFS fs src).getD ""))
          (raw ++ "/" ++ "CRM_Sales_Dashboard_25.xlsx")
        = readFS fs src) := by
  refine ⟨fun h1 => ?_, fun h1 h2 => ?_, fun h1 h2 => ?_⟩
  · simp [ensure_excel_available, h1]
  · simp [ensure_excel_available, h1, h2]
  · obtain ⟨c, hc⟩ := Option.isSome_iff_exists.mp h2
    refine ⟨by simp [ensure_excel_available, h1, h2], ?_⟩
    simp [readFS, writeFS, List.lookup, fileExists] at *
    simp [hc]

/-- Witness for C3: the three branches at concrete filesystems. -/
theorem ensure_excel_available_cases_witness :
    (ensure_excel_available [("data/raw/CRM_Sales_Dashboard_25.xlsx", "wb")]
        "src.xlsx" "data/raw" "CRM_Sales_Dashboard_25.xlsx"
      = Except.ok ([("data/raw/CRM_Sales_Dashboard_25.xlsx", "wb")],
          "data/raw" ++ "/" ++ "CRM_Sales_Dashboard_25.xlsx")) ∧
    (ensure_excel_available [] "src.xlsx" "data/raw" "CRM_Sales_Dashboard_25.xlsx"
      = Except.error ("Could not find source Excel at " ++ "src.xlsx")) ∧
    (ensure_excel_available [("src.xlsx", "wb")] "src.xlsx" "data/raw"
        "CRM_Sales_Dashboard_25.xlsx"
      = Except.ok
          (writeFS [("src.xlsx", "wb")] ("data/raw" ++ "/" ++ "CRM_Sales_Dashboard_25.xlsx")
            ((readFS [("src.xlsx", "wb")] "src.xlsx").getD ""),
           "data/raw" ++ "/" ++ "CRM_Sales_Dashboard_25.xlsx")) :=
  ⟨(ensure_excel_available_cases [("data/raw/CRM_Sales_Dashboard_25.xlsx", "wb")]
      "src.xlsx" "data/raw").1 (by decide),
   (ensure_excel_available_cases [] "src.xlsx" "data/raw").2.1 (by decide) (by decide),
   ((ensure_excel_available_cases [("src.xlsx", "wb")] "src.xlsx" "data/raw").2.2
      (by decide) (by decide)).1⟩

/-- Claim C4: when either table lacks the `SalesRep` column,
`process_and_merge` raises no error and returns the deals table
unchanged: same columns, same row count, same values. -/
theorem process_and_merge_passthrough (d t : DF)
    (h : "SalesRep" ∉ d.cols ∨ "SalesRep" ∉ t.cols) :
    process_and_merge d t = d ∧
    (process_and_merge d t).cols = d.cols ∧
    (process_and_merge d t).rows.length = d.rows.length ∧
    (process_and_merge d t).rows = d.rows := by
  have hn : ¬("SalesRep" ∈ d.cols ∧ "SalesRep" ∈ t.cols) := by tauto
  simp [process_and_merge, hn]

/-- Witness for C4: a deals table without the `SalesRep` column passes
through unchanged. -/
theorem process_and_merge_passthrough_witness :
    ("SalesRep" ∉ (DF.mk ["Rep", "Amount"] [[Value.str "A", Value.num 1]]).cols ∨
      "SalesRep" ∉ (DF.mk ["SalesRep", "Team"] []).cols) ∧
    process_and_merge (DF.mk ["Rep", "Amount"] [[Value.str "A", Value.num 1]])
        (DF.mk ["SalesRep", "Team"] [])
      = DF.mk ["Rep", "Amount"] [[Value.str "A", Value.num 1]] :=
  ⟨Or.inl (by decide),
   (process_and_merge_passthrough (DF.mk ["Rep", "Amount"] [[Value.str "A", Value.num 1]])
      (DF.mk ["SalesRep", "Team"] []) (Or.inl (by decide))).1⟩

/-- Claim C6: on a table missing the `Closed` column or missing the
`Amount` column, `train_model` returns with the filesystem unchanged (so
no `model_report.txt` appears) and, being a total function of the state,
propagates no exception from the classifier stage. -/
theorem train_model_skip
    (split : ℚ → ℕ → List (Value × ℤ) → List (Value × ℤ) × List (Value × ℤ))
    (report : List (Value × ℤ) × List (Value × ℤ) → String)
    (e : ℕ) (df : DF) (rd : String) (fs : FS)
    (h : "Closed" ∉ df.cols ∨ "Amount" ∉ df.cols) :
    train_model split report e df rd fs = fs ∧
    (readFS fs (rd ++ "/model_report.txt") = none →
      readFS (train_model split report e df rd fs) (rd ++ "/model_report.txt") = none) := by
  have hn : ¬("Closed" ∈ df.cols ∧ "Amount" ∈ df.cols) := by tauto
  have h1 : train_model split report e df rd fs = fs := by simp [train_model, hn]
  exact ⟨h1, fun h2 => by rw [h1]; exact h2⟩

/-- Witness for C6: a table with only an `Amount` column leaves an empty
filesystem empty, so no model report exists afterwards. -/
theorem train_model_skip_witness :
    ("Closed" ∉ (DF.mk ["Amount"] []).cols ∨ "Amount" ∉ (DF.mk ["Amount"] []).cols) ∧
    train_model (fun _ _ d => (d, [])) (fun _ => "") 0 (DF.mk ["Amount"] []) "reports" [] = [] ∧
    readFS (train_model (fun _ _ d => (d, [])) (fun _ => "") 0 (DF.mk ["Amount"] [])
        "reports" []) ("reports" ++ "/model_report.txt") = none :=
  ⟨Or.inl (by decide),
   (train_model_skip (fun _ _ d => (d, [])) (fun _ => "") 0 (DF.mk ["Amount"] [])
      "reports" [] (Or.inl (by decide))).1,
   (train_model_skip (fun _ _ d => (d, [])) (fun _ => "") 0 (DF.mk ["Amount"] [])
      "reports" [] (Or.inl (by decide))).2 (by decide)⟩

/-- Claim C7: a truthy explicit sheet name overrides exactly its own
role: with both supplied, heuristic detection decides neither role; with
one supplied, the heuristic decides only the other role. -/
theorem resolve_sheets_per_role (d t : String) (names : List String)
    (hd : d ≠ "") (ht : t ≠ "") :
    resolve_sheets (some d) (some t) names = some (d, t) ∧
    (∀ ad at2, detect_sheet_names names = some (ad, at2) →
      resolve_sheets (some d) none names = some (d, at2) ∧
      resolve_sheets none (some t) names = some (ad, t)) := by
  refine ⟨by simp [resolve_sheets, truthy, hd, ht], fun ad at2 hdet => ⟨?_, ?_⟩⟩
  · simp [resolve_sheets, truthy, hdet, pyOr, hd]
  · simp [resolve_sheets, truthy, hdet, pyOr, ht]

/-- Witness for C7: both overrides used verbatim; a single override
fixes its role while the other is detected. -/
theorem resolve_sheets_per_role_witness :
    resolve_sheets (some "Deals") (some "Team") ["X", "Sales"] = some ("Deals", "Team") ∧
    resolve_sheets (some "Deals") none ["X", "Sales"] = some ("Deals", "Sales") ∧
    resolve_sheets none (some "Team") ["X", "Sales"] = some ("X", "Team") :=
  ⟨(resolve_sheets_per_role "Deals" "Team" ["X", "Sales"] (by decide) (by decide)).1,
   ((resolve_sheets_per_role "Deals" "Team" ["X", "Sales"] (by decide) (by decide)).2
      "X" "Sales" (by decide)).1,
   ((resolve_sheets_per_role "Deals" "Team" ["X", "Sales"] (by decide) (by decide)).2
      "X" "Sales" (by decide)).2⟩

/-- Claim C8: the classifier stage is deterministic because
`random_state` is fixed to 42: for any ambient process entropies, two
runs on the same merged table perform the same train/test split and
produce the same filesystem (hence the same report text). -/
theorem train_model_deterministic
    (split : ℚ → ℕ → List (Value × ℤ) → List (Value × ℤ) × List (Value × ℤ))
    (report : List (Value × ℤ) × List (Value × ℤ) → String)
    (e₁ e₂ : ℕ) (df : DF) (rd : String) (fs : FS) :
    trainSplit split e₁ df = trainSplit split e₂ df ∧
    train_model split report e₁ df rd fs = train_model split report e₂ df rd fs := by
  constructor <;> simp [trainSplit, resolveSeed, train_model]

/-- Claim C9: an empty-string override is falsy, so it behaves exactly
as an absent override: the resolver result is unchanged, and with both
overrides empty the heuristically detected names are used. -/
theorem resolve_sheets_empty_override (darg targ : Option String) (names : List String) :
    resolve_sheets (some "") targ names = resolve_sheets none targ names ∧
    resolve_sheets darg (some "") names = resolve_sheets darg none names ∧
    (∀ ad at2, detect_sheet_names names = some (ad, at2) →
      resolve_sheets (some "") (some "") names = some (ad, at2)) := by
  refine ⟨?_, ?_, fun ad at2 hdet => ?_⟩
  · rcases hdet : detect_sheet_names names with _ | ⟨ad, at2⟩ <;>
      simp [resolve_sheets, truthy, pyOr, hdet]
  · rcases hdet : detect_sheet_names names with _ | ⟨ad, at2⟩ <;>
      simp [resolve_sheets, truthy, pyOr, hdet]
  · simp [resolve_sheets, truthy, pyOr, hdet]

/-- Witness for C9: an empty deals override on a workbook whose first
sheet matches no deals keyword falls back to the detected first sheet. -/
theorem resolve_sheets_empty_override_witness :
    resolve_sheets (some "") (some "Team") ["X", "Sales"]
      = resolve_sheets none (some "Team") ["X", "Sales"] ∧
    resolve_sheets (some "") (some "") ["X", "Sales"] = some ("X", "Sales") :=
  ⟨(resolve_sheets_empty_override (some "") (some "Team") ["X", "Sales"]).1,
   (resolve_sheets_empty_override (some "") (some "") ["X", "Sales"]).2.2
      "X" "Sales" (by decide)⟩

/-- Claim C10: on a merged table containing none of `Amount`, `Stage`,
`Closed`, `generate_summary` returns the empty mapping and
`save_summary_report` still succeeds, writing an empty
`summary_report.txt` rather than skipping the file or failing. -/
theorem generate_summary_empty (df : DF)
    (hA : "Amount" ∉ df.cols) (hS : "Stage" ∉ df.cols) (hC : "Closed" ∉ df.cols) :
    generate_summary df = [] ∧
    (∀ (render : SVal → String) (rd : String) (fs : FS),
      readFS (save_summary_report render (generate_summary df) rd fs)
          (rd ++ "/summary_report.txt") = some "") := by
  have h1 : generate_summary df = [] := by simp [generate_summary, hA, hS, hC]
  refine ⟨h1, fun render rd fs => ?_⟩
  rw [h1]
  simp [save_summary_report, writeFS, readFS, List.lookup, String.join]

/-- Witness for C10: a one-column table with an unrelated column yields
an empty summary and an empty report file. -/
theorem generate_summary_empty_witness :
    ("Amount" ∉ (DF.mk ["Foo"] []).cols ∧ "Stage" ∉ (DF.mk ["Foo"] []).cols ∧
      "Closed" ∉ (DF.mk ["Foo"] []).cols) ∧
    generate_summary (DF.mk ["Foo"] []) = [] ∧
    readFS (save_summary_report (fun _ => "") (generate_summary (DF.mk ["Foo"] []))
        "reports" []) ("reports" ++ "/summary_report.txt") = some "" :=
  ⟨⟨by decide, by decide, by decide⟩,
   (generate_summary_empty (DF.mk ["Foo"] []) (by decide) (by decide) (by decide)).1,
   (generate_summary_empty (DF.mk ["Foo"] []) (by decide) (by decide) (by decide)).2
     (fun _ => "") "reports" []⟩

/-- Claim C5: `generate_summary` computes, when the respective column is
present, Total Revenue as the sum of `Amount`, Average Deal Size as the
mean of `Amount`, per-stage counts for `Stage`, and Win Rate (%) as the
mean of `Closed` times 100 rounded to 2 decimals. -/
theorem generate_summary_metrics (df : DF) :
    ("Amount" ∈ df.cols →
      (generate_summary df).lookup "Total Revenue"
          = some (SVal.num (colSum (df.col "Amount"))) ∧
      (generate_summary df).lookup "Average Deal Size"
          = some (SVal.num (colMean (df.col "Amount")))) ∧
    ("Stage" ∈ df.cols →
      (generate_summary df).lookup "Deals by Stage"
          = some (SVal.counts (value_counts (df.col "Stage")))) ∧
    ("Closed" ∈ df.cols →
      (generate_summary df).lookup "Win Rate (%)"
          = some (SVal.num (pyRound2 (colMean (df.col "Closed") * 100)))) := by
  by_cases hA : "Amount" ∈ df.cols <;>
    by_cases hS : "Stage" ∈ df.cols <;>
      by_cases hC : "Closed" ∈ df.cols <;>
        simp [generate_summary, hA, hS, hC, List.lookup]

/-- Witness for C5: amount values 100, 200, 300 give total revenue 600
and average deal size 200; closed values 1, 0, 1, 1 give win rate 75. -/
theorem generate_summary_metrics_witness :
    (generate_summary (DF.mk ["Amount"] [[Value.num 100], [Value.num 200],
        [Value.num 300]])).lookup "Total Revenue" = some (SVal.num 600) ∧
    (generate_summary (DF.mk ["Amount"] [[Value.num 100], [Value.num 200],
        [Value.num 300]])).lookup "Average Deal Size" = some (SVal.num 200) ∧
    (generate_summary (DF.mk ["Closed"] [[Value.num 1], [Value.num 0], [Value.num 1],
        [Value.num 1]])).lookup "Win Rate (%)" = some (SVal.num 75) := by
  have hA := (generate_summary_metrics
    (DF.mk ["Amount"] [[Value.num 100], [Value.num 200], [Value.num 300]])).1 (by decide)
  have hC := (generate_summary_metrics
    (DF.mk ["Closed"] [[Value.num 1], [Value.num 0], [Value.num 1],
      [Value.num 1]])).2.2 (by decide)
  have eA : (DF.mk ["Amount"] [[Value.num 100], [Value.num 200],
      [Value.num 300]]).col "Amount"
      = [Value.num 100, Value.num 200, Value.num 300] := by decide
  have eC : (DF.mk ["Closed"] [[Value.num 1], [Value.num 0], [Value.num 1],
      [Value.num 1]]).col "Closed"
      = [Value.num 1, Value.num 0, Value.num 1, Value.num 1] := by decide
  have nA : numsOf [Value.num 100, Value.num 200, Value.num 300]
      = [100, 200, 300] := by decide
  have nC : numsOf [Value.num 1, Value.num 0, Value.num 1, Value.num 1]
      = [1, 0, 1, 1] := by decide
  have sA : colSum [Value.num 100, Value.num 200, Value.num 300] = 600 := by
    simp only [colSum, nA, List.sum_cons, List.sum_nil]; norm_num
  have mA : colMean [Value.num 100, Value.num 200, Value.num 300] = 200 := by
    simp only [colMean, colSum, nA, List.sum_cons, List.sum_nil, List.length_cons,
      List.length_nil]
    norm_num
  have mC : colMean [Value.num 1, Value.num 0, Value.num 1, Value.num 1] = 3 / 4 := by
    simp only [colMean, colSum, nC, List.sum_cons, List.sum_nil, List.length_cons,
      List.length_nil]
    norm_num
  have rC : pyRound2 ((3 / 4 : ℚ) * 100) = 75 := by
    have h1 : ((3 / 4 : ℚ) * 100) = 75 := by norm_num
    rw [h1]
    have h2 : ⌊(75 * 100 : ℚ)⌋ = 7500 := by norm_num
    simp only [pyRound2, roundHalfEven, h2]
    norm_num
  refine ⟨?_, ?_, ?_⟩
  · rw [hA.1, eA, sA]
  · rw [hA.2, eA, mA]
  · rw [hC, eC, mC, rC]

/-- Structure of a successful `find?`: the list splits at the found
element and everything before it fails the test. -/
theorem findFirstSplit {α : Type} (p : α → Bool) :
    ∀ (l : List α) (a : α), l.find? p = some a →
      ∃ l₁ l₂, l = l₁ ++ a :: l₂ ∧ p a = true ∧ ∀ x ∈ l₁, p x = false := by
  intro l
  induction l with
  | nil => intro a h; simp [List.find?] at h
  | cons b l ih =>
    intro a h
    by_cases hb : p b
    · rw [List.find?_cons_of_pos _ hb] at h
      obtain rfl : b = a := by injection h
      exact ⟨[], l, by simp, hb, by simp⟩
    · rw [List.find?_cons_of_neg _ (by simpa using hb)] at h
      obtain ⟨l₁, l₂, hsplit, hpa, hl₁⟩ := ih a h
      refine ⟨b :: l₁, l₂, by simp [hsplit], hpa, ?_⟩
      intro x hx
      rcases List.mem_cons.mp hx with rfl | hx
      · simpa using hb
      · exact hl₁ x hx

/-- The last element of a list is a member. -/
theorem getLastMemOf {α : Type} : ∀ (l : List α) (a : α), l.getLast? = some a → a ∈ l := by
  intro l
  induction l with
  | nil => intro a h; simp [List.getLast?] at h
  | cons b l ih =>
    intro a h
    cases l with
    | nil =>
      simp [List.getLast?] at h
      simp [h]
    | cons c l2 =>
      rw [List.getLast?_cons_cons] at h
      exact List.mem_cons_of_mem b (ih a h)

/-- A nonempty list has a last element. -/
theorem getLastIsSome {α : Type} : ∀ (l : List α), l ≠ [] → ∃ a, l.getLast? = some a := by
  intro l
  induction l with
  | nil => intro h; exact absurd rfl h
  | cons b l ih =>
    intro _
    cases l with
    | nil => exact ⟨b, rfl⟩
    | cons c l2 =>
      obtain ⟨a, ha⟩ := ih (by simp)
      exact ⟨a, by rw [List.getLast?_cons_cons]; exact ha⟩

/-- Generic first-match-or-fallback characterization of
`(l.find? p).getD fb`. -/
theorem chooseSpec (p : String → Bool) (names : List String) (fb : String)
    (hfb : fb ∈ names) :
    ((names.find? p).getD fb) ∈ names ∧
    ((∃ l₁ l₂, names = l₁ ++ ((names.find? p).getD fb) :: l₂ ∧
        p ((names.find? p).getD fb) = true ∧ ∀ s ∈ l₁, p s = false) ∨
     ((∀ s ∈ names, p s = false) ∧ ((names.find? p).getD fb) = fb)) := by
  rcases hf : names.find? p with _ | c
  · refine ⟨by simp [hf, hfb], Or.inr ⟨?_, by simp [hf]⟩⟩
    intro s hs
    have := List.find?_eq_none.mp hf s hs
    simpa using this
  · simp only [hf, Option.getD_some]
    refine ⟨List.mem_of_find?_eq_some hf, Or.inl ?_⟩
    exact findFirstSplit p names c hf

/-- Spec-side property of a chosen name: first sheet in workbook order
passing the keyword test, with nothing before it passing. -/
def FirstKeywordMatch (p : String → Bool) (names : List String) (c : String) : Prop :=
  ∃ l₁ l₂, names = l₁ ++ c :: l₂ ∧ p c = true ∧ ∀ s ∈ l₁, p s = false

/-- Spec-side policy for the deals role: first sheet matching a deals
keyword, or the very first sheet when none matches. -/
def DealsChoiceSpec (names : List String) (c : String) : Prop :=
  FirstKeywordMatch (matchesAny dealsKeywords) names c ∨
  ((∀ s ∈ names, matchesAny dealsKeywords s = false) ∧ names.head? = some c)

/-- Spec-side policy for the teams role: first sheet matching a teams
keyword, or the very last sheet when none matches. -/
def TeamsChoiceSpec (names : List String) (c : String) : Prop :=
  FirstKeywordMatch (matchesAny teamsKeywords) names c ∨
  ((∀ s ∈ names, matchesAny teamsKeywords s = false) ∧ names.getLast? = some c)

/-- Claim C2: on a nonempty workbook without overrides the resolver
returns for deals the first sheet matching "deal" / "pipeline" /
"opportunit" (case-insensitive substring), else the first sheet; for
teams the first sheet matching "team" / "sales", else the last sheet;
both results are members of the input list. -/
theorem detect_sheet_names_policy (names : List String) (h : names ≠ []) :
    ∃ d t, detect_sheet_names names = some (d, t) ∧ d ∈ names ∧ t ∈ names ∧
      DealsChoiceSpec names d ∧ TeamsChoiceSpec names t := by
  obtain ⟨h0, tl, rfl⟩ : ∃ h0 tl, names = h0 :: tl := by
    cases names with
    | nil => exact absurd rfl h
    | cons a l => exact ⟨a, l, rfl⟩
  obtain ⟨lst, hlst⟩ := getLastIsSome (h0 :: tl) h
  have hdet : detect_sheet_names (h0 :: tl)
      = some ((find_sheet (h0 :: tl) dealsKeywords).getD h0,
              (find_sheet (h0 :: tl) teamsKeywords).getD lst) := by
    simp [detect_sheet_names, hlst]
  obtain ⟨hdmem, hdspec⟩ :=
    chooseSpec (matchesAny dealsKeywords) (h0 :: tl) h0 (List.mem_cons_self h0 tl)
  obtain ⟨htmem, htspec⟩ :=
    chooseSpec (matchesAny teamsKeywords) (h0 :: tl) lst (getLastMemOf _ lst hlst)
  refine ⟨_, _, hdet, hdmem, htmem, ?_, ?_⟩
  · rcases hdspec with hfirst | ⟨hall, heq⟩
    · exact Or.inl hfirst
    · refine Or.inr ⟨hall, ?_⟩
      simp only [find_sheet]
      rw [heq]
      rfl
  · rcases htspec with hfirst | ⟨hall, heq⟩
    · exact Or.inl hfirst
    · refine Or.inr ⟨hall, ?_⟩
      simp only [find_sheet]
      rw [heq]
      exact hlst

/-- Witness for C2: the spec scenario, a workbook with sheets
"Pipeline" and "Sales Team". -/
theorem detect_sheet_names_policy_witness :
    ((["Pipeline", "Sales Team"] : List String) ≠ []) ∧
    detect_sheet_names ["Pipeline", "Sales Team"] = some ("Pipeline", "Sales Team") ∧
    (∃ d t, detect_sheet_names ["Pipeline", "Sales Team"] = some (d, t) ∧
      d ∈ ["Pipeline", "Sales Team"] ∧ t ∈ ["Pipeline", "Sales Team"] ∧
      DealsChoiceSpec ["Pipeline", "Sales Team"] d ∧
      TeamsChoiceSpec ["Pipeline", "Sales Team"] t) :=
  ⟨by decide, by decide, detect_sheet_names_policy ["Pipeline", "Sales Team"] (by decide)⟩

/-- A filter keeping elements whose image under `f` is a fixed value has
at most one element when the images are pairwise distinct. -/
theorem filterKeyLenLeOne {α β : Type} [DecidableEq β] (f : α → β) (v : β) :
    ∀ (l : List α), (l.map f).Nodup →
      (l.filter (fun x => decide (f x = v))).length ≤ 1 := by
  intro l
  induction l with
  | nil => intro _; simp
  | cons a l ih =>
    intro hnd
    rw [List.map_cons, List.nodup_cons] at hnd
    by_cases ha : f a = v
    · have htail : l.filter (fun x => decide (f x = v)) = [] := by
        rw [List.filter_eq_nil_iff]
        intro x hx
        simp only [decide_eq_true_eq]
        intro hfx
        have hax : f a = f x := by rw [ha, hfx]
        exact hnd.1 (hax ▸ List.mem_map_of_mem f hx)
      simp [List.filter_cons, ha, htail]
    · simpa [List.filter_cons, ha] using ih hnd.2

/-- Concatenating per-row outputs of length one preserves the row count. -/
theorem flatMapRowsLength (g : List Value → List (List Value)) :
    ∀ (l : List (List Value)), (∀ a ∈ l, (g a).length = 1) →
      (flatMapRows g l).length = l.length := by
  intro l
  induction l with
  | nil => intro _; rfl
  | cons L ls ih =>
    intro h
    have h1 : (g L).length = 1 := h L (List.mem_cons_self L ls)
    have h2 : ∀ a ∈ ls, (g a).length = 1 := fun a ha => h a (List.mem_cons_of_mem L ha)
    simp [flatMapRows, List.length_append, h1, ih h2]
    omega

/-- When the right-hand key values are pairwise distinct, every left row
produces exactly one merged row. -/
theorem mergeRowLength (dcols : List String) (t : DF) (key : String) (L : List Value)
    (h : (t.col key).Nodup) : (mergeRow dcols t key L).length = 1 := by
  have hle : (matchRows t key (keyCell dcols key L)).length ≤ 1 :=
    filterKeyLenLeOne (keyCell t.cols key) (keyCell dcols key L) t.rows h
  rw [mergeRow]
  rcases hms : matchRows t key (keyCell dcols key L) with _ | ⟨R, ms⟩
  · simp
  · rw [hms] at hle
    have : ms = [] := by
      cases ms with
      | nil => rfl
      | cons R2 ms2 => simp at hle
    subst this
    simp

/-- Claim C1, amended: with `SalesRep` in both tables,
`process_and_merge` is the pandas left merge on `SalesRep`, and when the
teams table has pairwise-distinct `SalesRep` values the merged row count
equals the deals row count. -/
theorem process_and_merge_left_join (d t : DF)
    (hd : "SalesRep" ∈ d.cols) (ht : "SalesRep" ∈ t.cols)
    (hu : (t.col "SalesRep").Nodup) :
    process_and_merge d t = mergeLeft d t "SalesRep" ∧
    (process_and_merge d t).rows.length = d.rows.length := by
  have h1 : process_and_merge d t = mergeLeft d t "SalesRep" := by
    simp [process_and_merge, hd, ht]
  refine ⟨h1, ?_⟩
  rw [h1]
  have h2 : (mergeLeft d t "SalesRep").rows = flatMapRows (mergeRow d.cols t "SalesRep") d.rows := rfl
  rw [h2]
  exact flatMapRowsLength _ d.rows (fun L _ => mergeRowLength d.cols t "SalesRep" L hu)

/-- Witness for the amended C1: overlapping key "A", non-overlapping key
"B", unique team keys; the merged row count equals the deals row count. -/
theorem process_and_merge_left_join_witness :
    ("SalesRep" ∈ (DF.mk ["SalesRep"] [[Value.str "A"], [Value.str "B"]]).cols) ∧
    ("SalesRep" ∈ (DF.mk ["SalesRep", "Team"] [[Value.str "A", Value.str "T1"]]).cols) ∧
    ((DF.mk ["SalesRep", "Team"] [[Value.str "A", Value.str "T1"]]).col "SalesRep").Nodup ∧
    (process_and_merge (DF.mk ["SalesRep"] [[Value.str "A"], [Value.str "B"]])
        (DF.mk ["SalesRep", "Team"] [[Value.str "A", Value.str "T1"]])).rows.length
      = (DF.mk ["SalesRep"] [[Value.str "A"], [Value.str "B"]]).rows.length :=
  ⟨by decide, by decide, by decide,
   (process_and_merge_left_join (DF.mk ["SalesRep"] [[Value.str "A"], [Value.str "B"]])
      (DF.mk ["SalesRep", "Team"] [[Value.str "A", Value.str "T1"]])
      (by decide) (by decide) (by decide)).2⟩

/-- Counterexample to C1 as stated: both tables contain `SalesRep`, the
key "A" overlaps and "B" does not, yet the merged row count (3) differs
from the deals row count (2) because the teams table repeats the key
"A". -/
theorem process_and_merge_row_count_counterexample :
    ("SalesRep" ∈ (DF.mk ["SalesRep"] [[Value.str "A"], [Value.str "B"]]).cols) ∧
    ("SalesRep" ∈ (DF.mk ["SalesRep", "Team"]
        [[Value.str "A", Value.str "T1"], [Value.str "A", Value.str "T2"]]).cols) ∧
    (Value.str "A" ∈ (DF.mk ["SalesRep"] [[Value.str "A"], [Value.str "B"]]).col "SalesRep") ∧
    (Value.str "A" ∈ (DF.mk ["SalesRep", "Team"]
        [[Value.str "A", Value.str "T1"], [Value.str "A", Value.str "T2"]]).col "SalesRep") ∧
    (Value.str "B" ∈ (DF.mk ["SalesRep"] [[Value.str "A"], [Value.str "B"]]).col "SalesRep") ∧
    (Value.str "B" ∉ (DF.mk ["SalesRep", "Team"]
        [[Value.str "A", Value.str "T1"], [Value.str "A", Value.str "T2"]]).col "SalesRep") ∧
    (process_and_merge (DF.mk ["SalesRep"] [[Value.str "A"], [Value.str "B"]])
        (DF.mk ["SalesRep", "Team"]
          [[Value.str "A", Value.str "T1"], [Value.str "A", Value.str "T2"]])).rows.length
      ≠ (DF.mk ["SalesRep"] [[Value.str "A"], [Value.str "B"]]).rows.length := by
  refine ⟨by decide, by decide, by decide, by decide, by decide, by decide, by decide⟩
